import Mathlib

/-!
Shallow embedding of the protochain transaction-lifecycle engine.

Sources embedded here:
- `src/api/src/api/transaction/v1/validation.rs` (pure state validators);
- `src/app/solana/cmd/api/src/api/transaction/v1/error_builder.rs`
  (submission error classification);
- `src/app/solana/cmd/api/src/api/transaction/v1/service_impl.rs`
  (sign / submit / estimate / monitor entry validation);
- `src/app/solana/cmd/api/src/websocket/manager.rs`
  (WebSocket subscription manager).

External library calls (base58/bincode codecs, RPC and pubsub clients,
ed25519 signing) are passed in as explicit function arguments, so every
definition stays executable and the control flow of the Rust source is
preserved verbatim.
-/

namespace Protochain

/-- Embeds `TransactionState` proto enum
(`protosol.solana.transaction.v1.TransactionState`). -/
inductive TransactionState where
  | unspecified
  | draft
  | compiled
  | partiallySigned
  | fullySigned
  deriving DecidableEq, Repr

/-- Debug rendering of a `TransactionState`, as Rust's `{from:?}` formatting
produces in the catch-all arm of `validate_state_transition`. -/
def TransactionState.debugStr : TransactionState → String
  | .unspecified => "Unspecified"
  | .draft => "Draft"
  | .compiled => "Compiled"
  | .partiallySigned => "PartiallySigned"
  | .fullySigned => "FullySigned"

/-- One account reference inside an instruction
(tested only for list emptiness by the validators). -/
structure InstructionAccount where
  pubkey : String
  is_signer : Bool
  is_writable : Bool
  deriving DecidableEq, Repr

/-- Embeds `SolanaInstruction` proto message (program target, account list,
opaque payload). The validators only inspect list emptiness. -/
structure SolanaInstruction where
  program_id : String
  accounts : List InstructionAccount
  data : List Nat
  deriving DecidableEq, Repr

/-- Embeds `TransactionConfig` proto message; `estimate_transaction` reads
`compute_unit_price` from it. -/
structure TransactionConfig where
  compute_unit_price : Nat
  deriving DecidableEq, Repr

/-- Embeds `Transaction` proto message, with `state` held as the decoded enum
(the prost accessor `transaction.state()`). -/
structure Transaction where
  instructions : List SolanaInstruction
  state : TransactionState
  config : Option TransactionConfig
  data : String
  fee_payer : String
  recent_blockhash : String
  signatures : List String
  hash : String
  signature : String
  deriving DecidableEq, Repr

/-- Embeds `validate_state_transition` from
`src/api/src/api/transaction/v1/validation.rs`, match arms in source
order (the guard arm `(_, Draft) if from != Draft` is expanded into the
pairs it actually captures after the `(FullySigned, _)` arm). -/
def validate_state_transition (fromState toState : TransactionState) :
    Except String Unit :=
  match fromState, toState with
  | .draft, .compiled => .ok ()
  | .compiled, .partiallySigned => .ok ()
  | .compiled, .fullySigned => .ok ()
  | .partiallySigned, .fullySigned => .ok ()
  | .fullySigned, _ =>
      .error "Cannot transition from FULLY_SIGNED state - it is terminal"
  | .compiled, .draft =>
      .error "Cannot transition back to DRAFT state - would break immutability"
  | .partiallySigned, .draft =>
      .error "Cannot transition back to DRAFT state - would break immutability"
  | .unspecified, .draft =>
      .error "Cannot transition back to DRAFT state - would break immutability"
  | .partiallySigned, .compiled =>
      .error "Cannot transition backward from PARTIALLY_SIGNED to COMPILED"
  | .unspecified, _ => .error "Cannot transition from UNSPECIFIED state"
  | _, .unspecified => .error "Cannot transition to UNSPECIFIED state"
  | f, t =>
      .error ("Invalid state transition from " ++ f.debugStr ++ " to "
        ++ t.debugStr)

/-- Embeds `validate_transaction_state_consistency` from
`src/api/src/api/transaction/v1/validation.rs`: per-state field
requirements, early-return style translated to nested conditionals. -/
def validate_transaction_state_consistency (t : Transaction) :
    Except String Unit :=
  match t.state with
  | .draft =>
      if t.instructions.isEmpty then
        .error "DRAFT transaction must have at least one instruction"
      else if !t.data.isEmpty then
        .error "DRAFT transaction must not have compiled data"
      else if !t.signatures.isEmpty then
        .error "DRAFT transaction must not have signatures"
      else .ok ()
  | .compiled =>
      if t.instructions.isEmpty then
        .error "COMPILED transaction must have instructions"
      else if t.data.isEmpty then
        .error "COMPILED transaction must have compiled data"
      else if !t.signatures.isEmpty then
        .error "COMPILED transaction must not have signatures yet"
      else if t.recent_blockhash.isEmpty then
        .error "COMPILED transaction must have recent_blockhash"
      else if t.fee_payer.isEmpty then
        .error "COMPILED transaction must have fee_payer"
      else .ok ()
  | .partiallySigned =>
      if t.data.isEmpty then
        .error "PARTIALLY_SIGNED transaction must have compiled data"
      else if t.signatures.isEmpty then
        .error "PARTIALLY_SIGNED transaction must have at least one signature"
      else if t.recent_blockhash.isEmpty then
        .error "PARTIALLY_SIGNED transaction must have recent_blockhash"
      else if t.fee_payer.isEmpty then
        .error "PARTIALLY_SIGNED transaction must have fee_payer"
      else .ok ()
  | .fullySigned =>
      if t.data.isEmpty then
        .error "FULLY_SIGNED transaction must have compiled data"
      else if t.signatures.isEmpty then
        .error "FULLY_SIGNED transaction must have signatures"
      else if t.recent_blockhash.isEmpty then
        .error "FULLY_SIGNED transaction must have recent_blockhash"
      else if t.fee_payer.isEmpty then
        .error "FULLY_SIGNED transaction must have fee_payer"
      else .ok ()
  | .unspecified => .error "Transaction state cannot be UNSPECIFIED"

/-- Embeds `validate_operation_allowed_for_state` from
`src/api/src/api/transaction/v1/validation.rs`. -/
def validate_operation_allowed_for_state (state : TransactionState)
    (operation : String) : Except String Unit :=
  match state, operation with
  | .draft, "compile" => .ok ()
  | .draft, "add_instruction" => .ok ()
  | .draft, "remove_instruction" => .ok ()
  | .compiled, "sign" => .ok ()
  | .compiled, "estimate" => .ok ()
  | .compiled, "simulate" => .ok ()
  | .partiallySigned, "sign" => .ok ()
  | .partiallySigned, "estimate" => .ok ()
  | .partiallySigned, "simulate" => .ok ()
  | .fullySigned, "submit" => .ok ()
  | .fullySigned, "estimate" => .ok ()
  | .fullySigned, "simulate" => .ok ()
  | .unspecified, _ => .error "No operations allowed for UNSPECIFIED state"
  | s, op =>
      .error ("Operation '" ++ op ++ "' not allowed for transaction state "
        ++ s.debugStr)

/-- The §4.1 requirements-table row for each state, written from the
spec's words (for comparison with `validate_transaction_state_consistency`,
which is translated from the source). -/
def stateConsistencySpec (t : Transaction) : Prop :=
  match t.state with
  | .draft =>
      t.instructions ≠ [] ∧ t.data = "" ∧ t.signatures = []
  | .compiled =>
      t.instructions ≠ [] ∧ t.data ≠ "" ∧ t.signatures = [] ∧
        t.fee_payer ≠ "" ∧ t.recent_blockhash ≠ ""
  | .partiallySigned =>
      t.data ≠ "" ∧ t.signatures ≠ [] ∧
        t.fee_payer ≠ "" ∧ t.recent_blockhash ≠ ""
  | .fullySigned =>
      t.data ≠ "" ∧ t.signatures ≠ [] ∧
        t.fee_payer ≠ "" ∧ t.recent_blockhash ≠ ""
  | .unspecified => False

/-- Instruction-level errors distinguished by `classify_instruction_error`
in `error_builder.rs`; every other `InstructionError` variant is treated
identically by its catch-all arm and is represented by `otherVariant`. -/
inductive InstructionErr where
  | insufficientFunds
  | missingRequiredSignature
  | computationalBudgetExceeded
  | custom (errorCode : Nat)
  | otherVariant
  deriving DecidableEq, Repr

/-- Embeds `solana_sdk::transaction::TransactionError` variants, exactly the
constructors matched by the exhaustive `classify_transaction_error`. -/
inductive SdkTransactionError where
  | accountInUse
  | accountLoadedTwice
  | accountNotFound
  | programAccountNotFound
  | insufficientFundsForFee
  | invalidAccountForFee
  | alreadyProcessed
  | blockhashNotFound
  | instructionError (index : Nat) (err : InstructionErr)
  | callChainTooDeep
  | missingSignatureForFee
  | invalidAccountIndex
  | signatureFailure
  | invalidProgramForExecution
  | sanitizeFailure
  | clusterMaintenance
  | accountBorrowOutstanding
  | wouldExceedMaxBlockCostLimit
  | unsupportedVersion
  | invalidWritableAccount
  | wouldExceedMaxAccountCostLimit
  | wouldExceedAccountDataBlockLimit
  | tooManyAccountLocks
  | addressLookupTableNotFound
  | invalidAddressLookupTableOwner
  | invalidAddressLookupTableData
  | invalidAddressLookupTableIndex
  | invalidRentPayingAccount
  | wouldExceedMaxVoteCostLimit
  | wouldExceedAccountDataTotalLimit
  | unbalancedTransaction
  | duplicateInstruction (index : Nat)
  | insufficientFundsForRent (accountIndex : Nat)
  | maxLoadedAccountsDataSizeExceeded
  | invalidLoadedAccountsDataSizeLimit
  | resanitizationNeeded
  | programExecutionTemporarilyRestricted (accountIndex : Nat)
  deriving DecidableEq, Repr

/-- Embeds `TransactionErrorCode` proto enum values referenced by
`error_builder.rs`. -/
inductive TransactionErrorCode where
  | unspecifiedCode
  | insufficientFunds
  | signatureVerificationFailed
  | wouldExceedBlockLimit
  | accountInUse
  | transientSimulationFailure
  | accountNotFound
  | invalidAccount
  | blockhashNotFound
  | invalidTransaction
  | programError
  | instructionError
  | nodeUnhealthy
  | networkError
  | timeout
  | connectionFailed
  | requestFailed
  | invalidSignature
  | rpcError
  | rateLimited
  | unknown
  deriving DecidableEq, Repr

/-- Embeds `TransactionSubmissionCertainty` proto enum. -/
inductive TransactionSubmissionCertainty where
  | notSubmitted
  | unknownResolvable
  | unknownCertainty
  deriving DecidableEq, Repr

/-- The shape of `solana_rpc_client_api::client_error::ErrorKind` as
destructured by `classify_error_with_certainty`: each constructor is one
of the disjoint patterns of its match. `preflightFailure` carries the
optional transaction error of the embedded simulation result;
`reqwestError` carries the `is_timeout` / `is_connect` flags the code
reads; `rpcOther` stands for the remaining `RpcError` variants caught by
the `RpcError(_)` arm. -/
inductive ClientErrorKind where
  | preflightFailure (simulationErr : Option SdkTransactionError)
  | transactionError (err : SdkTransactionError)
  | nodeUnhealthy
  | ioError
  | reqwestError (isTimeout isConnect : Bool)
  | signingError
  | serdeJsonError
  | rpcParseError
  | rpcOther
  | customError
  deriving DecidableEq, Repr

/-- Embeds `classify_instruction_error` from `error_builder.rs`. -/
def classify_instruction_error (_instructionIndex : Nat)
    (instructionError : InstructionErr) : TransactionErrorCode :=
  match instructionError with
  | .insufficientFunds => .insufficientFunds
  | .missingRequiredSignature => .signatureVerificationFailed
  | .computationalBudgetExceeded => .wouldExceedBlockLimit
  | .custom _ => .programError
  | .otherVariant => .instructionError

/-- Embeds `classify_transaction_error` from `error_builder.rs`. -/
def classify_transaction_error (transactionError : SdkTransactionError) :
    TransactionErrorCode :=
  match transactionError with
  | .insufficientFundsForFee | .insufficientFundsForRent _ =>
      .insufficientFunds
  | .signatureFailure | .missingSignatureForFee =>
      .signatureVerificationFailed
  | .wouldExceedMaxBlockCostLimit
  | .wouldExceedMaxAccountCostLimit
  | .wouldExceedMaxVoteCostLimit
  | .wouldExceedAccountDataBlockLimit
  | .wouldExceedAccountDataTotalLimit =>
      .wouldExceedBlockLimit
  | .tooManyAccountLocks => .accountInUse
  | .clusterMaintenance => .transientSimulationFailure
  | .accountNotFound | .programAccountNotFound => .accountNotFound
  | .invalidAccountForFee
  | .accountLoadedTwice
  | .accountBorrowOutstanding
  | .invalidWritableAccount
  | .invalidRentPayingAccount => .invalidAccount
  | .blockhashNotFound => .blockhashNotFound
  | .sanitizeFailure
  | .unsupportedVersion
  | .duplicateInstruction _
  | .unbalancedTransaction => .invalidTransaction
  | .instructionError idx instructionError =>
      classify_instruction_error idx instructionError
  | .addressLookupTableNotFound
  | .invalidAddressLookupTableOwner
  | .invalidAddressLookupTableData
  | .invalidAddressLookupTableIndex => .invalidTransaction
  | .callChainTooDeep
  | .invalidAccountIndex
  | .invalidProgramForExecution
  | .maxLoadedAccountsDataSizeExceeded
  | .invalidLoadedAccountsDataSizeLimit
  | .resanitizationNeeded
  | .programExecutionTemporarilyRestricted _ => .invalidTransaction
  | .alreadyProcessed => .invalidTransaction
  | .accountInUse => .accountInUse

/-- Embeds `classify_error_with_certainty` from `error_builder.rs`. -/
def classify_error_with_certainty (clientError : ClientErrorKind) :
    TransactionErrorCode × TransactionSubmissionCertainty :=
  match clientError with
  | .preflightFailure simulationErr =>
      match simulationErr with
      | some txError =>
          (classify_transaction_error txError, .notSubmitted)
      | none => (.invalidTransaction, .notSubmitted)
  | .transactionError txError =>
      (classify_transaction_error txError, .notSubmitted)
  | .nodeUnhealthy => (.nodeUnhealthy, .unknownResolvable)
  | .ioError => (.networkError, .unknownResolvable)
  | .reqwestError isTimeout isConnect =>
      if isTimeout then (.timeout, .unknownResolvable)
      else if isConnect then (.connectionFailed, .unknownResolvable)
      else (.requestFailed, .unknownResolvable)
  | .signingError => (.invalidSignature, .notSubmitted)
  | .serdeJsonError => (.invalidTransaction, .notSubmitted)
  | .rpcParseError => (.invalidTransaction, .notSubmitted)
  | .rpcOther => (.rpcError, .unknownResolvable)
  | .customError => (.unknown, .unknownCertainty)

/-- Embeds `determine_retryability` from `error_builder.rs`: retryability as a
pure function of the error code. -/
def determine_retryability (code : TransactionErrorCode) : Bool :=
  match code with
  | .insufficientFunds
  | .accountInUse
  | .wouldExceedBlockLimit
  | .transientSimulationFailure => true
  | .networkError
  | .timeout
  | .nodeUnhealthy
  | .rateLimited
  | .rpcError
  | .connectionFailed
  | .requestFailed => true
  | _ => false

/-- The structured `TransactionError` record produced by
`build_structured_error` (proto message
`protochain.solana.transaction.v1.TransactionError`, with `code` and
`certainty` held as decoded enums). -/
structure TransactionErrorRecord where
  code : TransactionErrorCode
  message : String
  details : String
  retryable : Bool
  certainty : TransactionSubmissionCertainty
  blockhash : String
  blockhash_expiry_slot : Nat
  deriving DecidableEq, Repr

/-- Embeds `build_structured_error` from `error_builder.rs`. The Rust function
renders the client error with `Display` and serializes details with
`serde_json`; those external renderings are passed in as the functions
`render` and `detailsOf`. -/
def build_structured_error (render detailsOf : ClientErrorKind → String)
    (clientError : ClientErrorKind) (transactionBlockhash : String)
    (currentSlot : Nat) : TransactionErrorRecord :=
  let expirySlot := currentSlot + 150
  let classified := classify_error_with_certainty clientError
  let errorCode := classified.fst
  let certainty := classified.snd
  let retryable := determine_retryability errorCode
  let details := detailsOf clientError
  { code := errorCode
    message := "Transaction submission failed: " ++ render clientError
    details := details
    retryable := retryable
    certainty := certainty
    blockhash := transactionBlockhash
    blockhash_expiry_slot := expirySlot }

/-- gRPC status codes produced by the transaction service entry points. -/
inductive StatusCode where
  | okStatus
  | invalidArgument
  | failedPrecondition
  | unimplemented
  | internal
  | notFound
  deriving DecidableEq, Repr

/-- A `tonic::Status`: code plus message. -/
structure Status where
  code : StatusCode
  message : String
  deriving DecidableEq, Repr

/-- A 64-byte ed25519 signature, as raw bytes. -/
abbrev Sig : Type := List Nat

/-- Embeds `Signature::default()`: the all-zero signature marking an unsigned
slot. -/
def defaultSignature : Sig := List.replicate 64 0

/-- Embeds `MessageHeader` of a compiled Solana message (only
`num_required_signatures` is read by the embedded code). -/
structure MessageHeader where
  num_required_signatures : Nat
  deriving DecidableEq, Repr

/-- A compiled Solana `Message`: header, ordered account keys (rendered
as base58 strings, as compared against `keypair.pubkey()`), and recent
blockhash. -/
structure SolanaMessage where
  header : MessageHeader
  account_keys : List String
  recent_blockhash : String
  deriving DecidableEq, Repr

/-- A decoded `solana_sdk` `Transaction`: the message, its canonical
serialized byte representation (`message_data()`, produced by external
serialization and therefore carried as data here — signing never changes
it), and the signature slots. -/
structure SolanaTx where
  message : SolanaMessage
  msg_data : List Nat
  signatures : List Sig
  deriving DecidableEq, Repr

/-- Outcome of `submit_transaction` up to the network boundary: either an
early rejection (no network interaction), or the transaction reaching
`send_transaction_with_config`. -/
inductive SubmitOutcome where
  | rejected (code : StatusCode) (message : String)
  | sent (tx : SolanaTx)
  deriving DecidableEq, Repr

/-- Embeds `submit_transaction` from
`src/app/solana/cmd/api/src/api/transaction/v1/service_impl.rs`,
up to the RPC send. The base58 + bincode decoding of `transaction.data`
is external library code and is supplied as the `decode` argument
(`none` covers both decode failure arms, each of which returns
`InvalidArgument` in the source). -/
def submit_transaction (decode : String → Option SolanaTx)
    (transactionReq : Option Transaction) : SubmitOutcome :=
  match transactionReq with
  | none => .rejected .invalidArgument "Transaction is required"
  | some transaction =>
    let currentState := transaction.state
    match validate_operation_allowed_for_state currentState "submit" with
    | .error e => .rejected .failedPrecondition e
    | .ok () =>
      match validate_transaction_state_consistency transaction with
      | .error e =>
          .rejected .invalidArgument ("Transaction validation failed: " ++ e)
      | .ok () =>
        if currentState ≠ TransactionState.fullySigned then
          .rejected .failedPrecondition
            "Transaction must be fully signed before submission"
        else
          match decode transaction.data with
          | none =>
              .rejected .invalidArgument "Failed to decode transaction data"
          | some solanaTransaction =>
            if solanaTransaction.signatures.any
                (fun sig => sig = defaultSignature) then
              .rejected .failedPrecondition
                "Transaction contains unsigned accounts"
            else
              .sent solanaTransaction

/-- A parsed private key: only its derived public identity is inspected
by the signing loop (the ed25519 signing operation itself is the
external `signFn`). -/
structure Keypair where
  pubkey : String
  deriving DecidableEq, Repr

/-- One iteration of the signing loop in `sign_transaction`
(`service_impl.rs`): find the key's account position in the message's
account list and place `keypair.sign_message(message_data())` — the
external deterministic `signFn` — at that slot; keys with no matching
account are skipped. -/
def apply_keypair (signFn : Keypair → List Nat → Sig) (tx : SolanaTx)
    (kp : Keypair) : SolanaTx :=
  match tx.message.account_keys.findIdx? (fun key => key == kp.pubkey) with
  | some accountIndex =>
      { tx with
          signatures := tx.signatures.set accountIndex
            (signFn kp tx.msg_data) }
  | none => tx

/-- The full signing loop of `sign_transaction`: applies each supplied
keypair in order and counts `signatures_applied`. -/
def sign_with_keypairs (signFn : Keypair → List Nat → Sig)
    (keypairs : List Keypair) (tx : SolanaTx) : SolanaTx × Nat :=
  keypairs.foldl
    (fun acc kp =>
      match acc.1.message.account_keys.findIdx?
          (fun key => key == kp.pubkey) with
      | some _ => (apply_keypair signFn acc.1 kp, acc.2 + 1)
      | none => (acc.1, acc.2))
    (tx, 0)

/-- The count the completeness check compares against
`num_required_signatures`: `sign_transaction` keeps only the non-default
signature slots (`filter(|sig| **sig != Signature::default())`) and takes
the length of that list. -/
def populated_signature_count (tx : SolanaTx) : Nat :=
  (tx.signatures.filter (fun sig => sig ≠ defaultSignature)).length

/-- The state decision of `sign_transaction`: `FullySigned` when the
provided signature count reaches the required count, else
`PartiallySigned`. -/
def sign_new_state (provided required : Nat) : TransactionState :=
  if provided ≥ required then .fullySigned else .partiallySigned

/-- Embeds `MonitorTransactionRequest` proto message; `timeout_seconds` is a
`u32`, `commitment_level` the raw `i32` enum value. -/
structure MonitorTransactionRequest where
  signature : String
  commitment_level : Int
  include_logs : Bool
  timeout_seconds : Nat
  deriving DecidableEq, Repr

/-- The validation prefix of `monitor_transaction`
(`service_impl.rs`), everything before the subscription is created.
Signature parsing (`solana_sdk`) and the generated
`CommitmentLevel::try_from` are external and supplied as predicates.
On success the returned value is the effective timeout handed to
`subscribe_to_signature`; an `Except.error` is returned before any
subscription is created or stream handle built. -/
def monitor_transaction_validate (sigParses : String → Bool)
    (commitmentParses : Int → Bool) (req : MonitorTransactionRequest) :
    Except Status Nat :=
  if req.signature.isEmpty then
    .error ⟨.invalidArgument, "Transaction signature is required"⟩
  else if !sigParses req.signature then
    .error ⟨.invalidArgument, "Invalid signature format"⟩
  else if !commitmentParses req.commitment_level then
    .error ⟨.invalidArgument, "Invalid commitment level"⟩
  else if !(5 ≤ (if req.timeout_seconds = 0 then 60 else req.timeout_seconds)
      ∧ (if req.timeout_seconds = 0 then 60 else req.timeout_seconds) ≤ 300 :
      Bool) then
    .error ⟨.invalidArgument, "Timeout must be between 5 and 300 seconds"⟩
  else
    .ok (if req.timeout_seconds = 0 then 60 else req.timeout_seconds)

/-- The status code of a monitor validation result (`none` when the
request proceeds to subscription creation). -/
def monitor_result_code : Except Status Nat → Option StatusCode
  | .error s => some s.code
  | .ok _ => none

/-- The `value` part of a `simulate_transaction_with_config` RPC
response. -/
structure SimulationValue where
  units_consumed : Option Nat
  logs : Option (List String)
  deriving DecidableEq, Repr

/-- Rust's `u64::clamp(lo, hi)` semantics. -/
def rust_clamp (x lo hi : Nat) : Nat :=
  if x < lo then lo else if x > hi then hi else x

/-- Embeds `EstimateTransactionResponse` proto message. -/
structure EstimateTransactionResponse where
  compute_units : Nat
  fee_lamports : Nat
  priority_fee : Nat
  deriving DecidableEq, Repr

/-- Embeds `estimate_transaction` from `service_impl.rs`. The base58 + bincode
decode of the compiled message and the network simulation are external
calls, supplied as `decodeMsg` and the one-shot `simulateResult`
(`none` models `Err` from the RPC client). -/
def estimate_transaction (decodeMsg : String → Option SolanaMessage)
    (simulateResult : Option SimulationValue)
    (transactionReq : Option Transaction) :
    Except Status EstimateTransactionResponse :=
  match transactionReq with
  | none => .error ⟨.invalidArgument, "Transaction is required"⟩
  | some transaction =>
    match validate_operation_allowed_for_state transaction.state "estimate" with
    | .error e => .error ⟨.failedPrecondition, e⟩
    | .ok () =>
      match validate_transaction_state_consistency transaction with
      | .error e =>
          .error ⟨.invalidArgument, "Transaction validation failed: " ++ e⟩
      | .ok () =>
        if transaction.data.isEmpty then
          .error ⟨.invalidArgument,
            "Transaction must be compiled before estimation"⟩
        else
          match decodeMsg transaction.data with
          | none =>
              .error ⟨.invalidArgument, "Failed to decode transaction data"⟩
          | some _message =>
            let fallbackUnits :=
              rust_clamp (transaction.instructions.length * 50000)
                200000 1400000
            let computeUnits :=
              match simulateResult with
              | some value =>
                  match value.units_consumed with
                  | some units => if units > 0 then units else fallbackUnits
                  | none => fallbackUnits
              | none => fallbackUnits
            let baseFeeLamports := 5000
            let computeUnitPrice :=
              (transaction.config.map
                (fun config => config.compute_unit_price)).getD 0
            let priorityFee :=
              if computeUnitPrice > 0 then
                min (computeUnits * computeUnitPrice) 1000000
              else 1000
            .ok
              { compute_units := computeUnits
                fee_lamports := baseFeeLamports + priorityFee
                priority_fee := priorityFee }

/-- The `compute_units` of a successful estimate (`none` on error). -/
def estimate_compute_units :
    Except Status EstimateTransactionResponse → Option Nat
  | .ok r => some r.compute_units
  | .error _ => none

/-- Embeds `TransactionStatus` proto enum as used by the monitoring bridge. -/
inductive TransactionStatus where
  | unspecifiedStatus
  | received
  | processed
  | confirmed
  | finalized
  | failed
  | dropped
  | timedOut
  deriving DecidableEq, Repr

/-- Embeds `CommitmentLevel` proto enum. -/
inductive CommitmentLevel where
  | unspecified
  | processed
  | confirmed
  | finalized
  deriving DecidableEq, Repr

/-- Embeds `WebSocketManager::commitment_from_status` from `manager.rs`. -/
def commitment_from_status : TransactionStatus → CommitmentLevel
  | .finalized => .finalized
  | .confirmed => .confirmed
  | _ => .processed

/-- Embeds `WebSocketManager::summarize_status` from `manager.rs` (the Debug
rendering of the SDK error is external, passed as `renderErr`). -/
def summarize_status (renderErr : SdkTransactionError → String)
    (err : Option SdkTransactionError) (confirmations : Option Nat) :
    TransactionStatus × Option String :=
  match err with
  | some e => (.failed, some ("Transaction failed: " ++ renderErr e))
  | none =>
      match confirmations with
      | some 0 => (.finalized, none)
      | none => (.finalized, none)
      | some _ => (.confirmed, none)

/-- Embeds `MonitorTransactionResponse` proto message (`status` and
`current_commitment` held as decoded enums). -/
structure MonitorTransactionResponse where
  signature : String
  status : TransactionStatus
  slot : Nat
  error_message : String
  logs : List String
  compute_units_consumed : Nat
  current_commitment : CommitmentLevel
  deriving DecidableEq, Repr

/-- One entry of a `get_signature_statuses` response. -/
structure TxStatusInfo where
  err : Option SdkTransactionError
  confirmations : Option Nat
  slot : Nat
  deriving DecidableEq, Repr

/-- How far `handle_signature_subscription` (`manager.rs`) gets before
its main select loop: an immediate terminal report from the pre-subscribe
status check, a setup failure (a `Failed` response is sent and the task
returns), or entry into the hybrid push + poll loop. -/
inductive MonitorSetupOutcome where
  | immediateStatus (resp : MonitorTransactionResponse)
  | setupFailed (resp : MonitorTransactionResponse)
  | hybridLoop
  deriving DecidableEq, Repr

/-- The setup phase of `handle_signature_subscription` from
`manager.rs`. External calls are supplied as arguments:
`statusResult` is the `get_signature_statuses` outcome (`none` = RPC
error, `some none` = no status yet, `some (some st)` = status found),
`pubsubResult` is `PubsubClient::new` and `subscribeResult` is
`signature_subscribe`, each carrying its rendered error string on
failure. -/
def handle_signature_subscription_setup
    (renderErr : SdkTransactionError → String) (signature_str : String)
    (statusResult : Option (Option TxStatusInfo))
    (pubsubResult : Except String Unit)
    (subscribeResult : Except String Unit) : MonitorSetupOutcome :=
  match statusResult with
  | some (some status) =>
      let summary := summarize_status renderErr status.err status.confirmations
      .immediateStatus
        { signature := signature_str
          status := summary.1
          slot := status.slot
          error_message := summary.2.getD ""
          logs := []
          compute_units_consumed := 0
          current_commitment := commitment_from_status summary.1 }
  | _ =>
      match pubsubResult with
      | .error e =>
          .setupFailed
            { signature := signature_str
              status := .failed
              slot := 0
              error_message := "WebSocket connection failed: " ++ e
              logs := []
              compute_units_consumed := 0
              current_commitment := .unspecified }
      | .ok () =>
          match subscribeResult with
          | .error e =>
              .setupFailed
                { signature := signature_str
                  status := .failed
                  slot := 0
                  error_message := "Signature subscription failed: " ++ e
                  logs := []
                  compute_units_consumed := 0
                  current_commitment := .unspecified }
          | .ok () => .hybridLoop

/-- The state constructed by `WebSocketManager::new` (`manager.rs`): the
RPC client is built from `rpc_url`, the subscription map starts empty,
and the stored WebSocket URL is a hardcoded literal, not the `ws_url`
argument. -/
structure WebSocketManagerState where
  ws_url : String
  rpc_url : String
  active_subscriptions : List String
  deriving DecidableEq, Repr

/-- Embeds `WebSocketManager::new` from `manager.rs`. -/
def WebSocketManager_new (_wsUrlArg rpcUrlArg : String) :
    WebSocketManagerState :=
  { ws_url := "wss://coned-duped-tees.txtx.network:8900"
    rpc_url := rpcUrlArg
    active_subscriptions := [] }

/-- The WebSocket endpoint a subscription connects to:
`subscribe_to_signature` clones `self.ws_url` and the spawned
`handle_signature_subscription` passes it to `PubsubClient::new`. -/
def subscription_ws_url (manager : WebSocketManagerState) : String :=
  manager.ws_url

end Protochain

namespace Protochain

/-- A string's `isEmpty` is `false` exactly when the string is non-empty. -/
theorem string_isEmpty_false_iff (s : String) : s.isEmpty = false ↔ s ≠ "" := by
  rw [← Bool.not_eq_true, not_iff_not]
  exact String.isEmpty_iff s

/-- C1: the claim (with the spec's §4.1 table and the repository's own
`test_valid_state_transitions`) holds `PartiallySigned → PartiallySigned`
to be a permitted transition, but `validate_state_transition` has no match
arm for that pair and falls through to the catch-all error arm. This
theorem evaluates the embedded source at the failing input. -/
theorem C1_partially_signed_self_transition_errs :
    validate_state_transition TransactionState.partiallySigned
      TransactionState.partiallySigned
    = Except.error
        "Invalid state transition from PartiallySigned to PartiallySigned" :=
  rfl

/-- C2: `validate_transaction_state_consistency` accepts a transaction
exactly when its fields satisfy its state's row of the §4.1 requirements
table (hence removing any single required field from a minimally-valid
transaction makes the check fail). -/
theorem C2_state_consistency_iff_table (t : Transaction) :
    validate_transaction_state_consistency t = Except.ok () ↔
      stateConsistencySpec t := by
  unfold validate_transaction_state_consistency stateConsistencySpec
  cases h : t.state <;> split_ifs <;>
    simp_all [List.isEmpty_iff, String.isEmpty_iff, string_isEmpty_false_iff]

/-- C5 counterexample: the claim says a structured `TooManyAccountLocks`
transaction error is classified with code `WouldExceedBlockLimit`, but
`classify_transaction_error` maps it to `AccountInUse`. -/
theorem C5_too_many_account_locks_not_block_limit :
    (classify_error_with_certainty
        (ClientErrorKind.transactionError
          SdkTransactionError.tooManyAccountLocks)).fst
      ≠ TransactionErrorCode.wouldExceedBlockLimit := by
  decide

/-- C5 amended: a structured `TooManyAccountLocks` error is classified as
code `AccountInUse` with certainty `NotSubmitted` and retryable `true` —
the same certainty and retryability as the block/account cost-limit
errors, but a distinct code (those map to `WouldExceedBlockLimit`). -/
theorem C5_too_many_account_locks_classification :
    classify_error_with_certainty
        (ClientErrorKind.transactionError
          SdkTransactionError.tooManyAccountLocks)
      = (TransactionErrorCode.accountInUse,
          TransactionSubmissionCertainty.notSubmitted)
    ∧ determine_retryability TransactionErrorCode.accountInUse = true
    ∧ classify_transaction_error SdkTransactionError.wouldExceedMaxBlockCostLimit
        = TransactionErrorCode.wouldExceedBlockLimit
    ∧ classify_transaction_error SdkTransactionError.wouldExceedMaxAccountCostLimit
        = TransactionErrorCode.wouldExceedBlockLimit
    ∧ determine_retryability TransactionErrorCode.wouldExceedBlockLimit = true := by
  decide

/-- C6: every record produced by `build_structured_error` has its
`retryable` field equal to `determine_retryability` of its `code` field
(retryability is derived from the code, never chosen independently); and
a client error carrying a structured insufficient-funds-for-fee or
insufficient-funds-for-rent transaction error — directly or embedded in a
preflight simulation failure — yields code `InsufficientFunds`, certainty
`NotSubmitted`, retryable `true`. -/
theorem C6_insufficient_funds_and_derived_retryability
    (render detailsOf : ClientErrorKind → String) (e : ClientErrorKind)
    (bh : String) (slot : Nat) :
    (build_structured_error render detailsOf e bh slot).retryable
        = determine_retryability
            (build_structured_error render detailsOf e bh slot).code
    ∧ ∀ x : SdkTransactionError,
        (x = SdkTransactionError.insufficientFundsForFee
          ∨ ∃ i, x = SdkTransactionError.insufficientFundsForRent i) →
        (e = ClientErrorKind.transactionError x
          ∨ e = ClientErrorKind.preflightFailure (some x)) →
        (build_structured_error render detailsOf e bh slot).code
            = TransactionErrorCode.insufficientFunds
        ∧ (build_structured_error render detailsOf e bh slot).certainty
            = TransactionSubmissionCertainty.notSubmitted
        ∧ (build_structured_error render detailsOf e bh slot).retryable
            = true := by
  constructor
  · rfl
  · rintro x (rfl | ⟨i, rfl⟩) (rfl | rfl) <;>
      simp [build_structured_error, classify_error_with_certainty,
        classify_transaction_error, determine_retryability]

/-- C3: `submit_transaction` on a FullySigned, state-consistent
transaction whose decoded payload still has a default/empty signature
slot is rejected with `FailedPrecondition` before any network send (the
outcome is a rejection, not `sent`). -/
theorem C3_submit_default_signature_rejected
    (decode : String → Option SolanaTx) (tx : Transaction) (st : SolanaTx)
    (hstate : tx.state = TransactionState.fullySigned)
    (hcons : validate_transaction_state_consistency tx = Except.ok ())
    (hdec : decode tx.data = some st)
    (hsig : defaultSignature ∈ st.signatures) :
    submit_transaction decode (some tx)
      = SubmitOutcome.rejected StatusCode.failedPrecondition
          "Transaction contains unsigned accounts" := by
  have hany : st.signatures.any (fun sig => sig = defaultSignature) = true := by
    simp only [List.any_eq_true, decide_eq_true_eq]
    exact ⟨defaultSignature, hsig, rfl⟩
  simp [submit_transaction, hstate, hcons, hdec,
    validate_operation_allowed_for_state, hany]

/-- C3 witness: a concrete FullySigned transaction whose decoded payload
has its single signature slot left at the default signature. -/
theorem C3_submit_default_signature_witness :
    submit_transaction
        (fun _ => some
          { message :=
              { header := { num_required_signatures := 1 }
                account_keys := ["payer"]
                recent_blockhash := "bh" }
            msg_data := [1, 2, 3]
            signatures := [defaultSignature] })
        (some
          { instructions := []
            state := TransactionState.fullySigned
            config := none
            data := "payload"
            fee_payer := "payer"
            recent_blockhash := "bh"
            signatures := ["sigtext"]
            hash := ""
            signature := "" })
      = SubmitOutcome.rejected StatusCode.failedPrecondition
          "Transaction contains unsigned accounts" :=
  C3_submit_default_signature_rejected _ _ _ rfl rfl rfl
    (List.mem_singleton.mpr rfl)

/-- C9: signing is idempotent per key. For a key whose public identity
sits at slot `i` of the message's account list (with `i` inside the
signature vector), applying the key a second time — in a separate pass or
by supplying it twice in one request — leaves the transaction unchanged:
the same signature bytes `signFn k msg_data` sit at the same slot, the
populated-slot count does not increase, and the completeness decision
against the required-signer count is unchanged. -/
theorem C9_signing_idempotent_per_key (signFn : Keypair → List Nat → Sig)
    (k : Keypair) (tx : SolanaTx) (i : Nat)
    (hidx : tx.message.account_keys.findIdx? (fun key => key == k.pubkey)
      = some i)
    (hlen : i < tx.signatures.length) :
    apply_keypair signFn (apply_keypair signFn tx k) k
        = apply_keypair signFn tx k
    ∧ (apply_keypair signFn tx k).signatures[i]?
        = some (signFn k tx.msg_data)
    ∧ (apply_keypair signFn (apply_keypair signFn tx k) k).signatures[i]?
        = some (signFn k tx.msg_data)
    ∧ (sign_with_keypairs signFn [k, k] tx).1
        = (sign_with_keypairs signFn [k] tx).1
    ∧ populated_signature_count (apply_keypair signFn (apply_keypair signFn tx k) k)
        = populated_signature_count (apply_keypair signFn tx k)
    ∧ ∀ required : Nat,
        sign_new_state
            (populated_signature_count
              (apply_keypair signFn (apply_keypair signFn tx k) k)) required
          = sign_new_state
              (populated_signature_count (apply_keypair signFn tx k)) required := by
  have happly : apply_keypair signFn tx k
      = { tx with signatures := tx.signatures.set i (signFn k tx.msg_data) } := by
    simp [apply_keypair, hidx]
  have hsame : apply_keypair signFn (apply_keypair signFn tx k) k
      = apply_keypair signFn tx k := by
    rw [happly]
    simp [apply_keypair, hidx, List.set_set]
  have hget : (apply_keypair signFn tx k).signatures[i]?
      = some (signFn k tx.msg_data) := by
    rw [happly]
    exact List.getElem?_set_eq_of_lt _ hlen
  refine ⟨hsame, hget, by rw [hsame]; exact hget, ?_, by rw [hsame],
    by intro required; rw [hsame]⟩
  simp only [sign_with_keypairs, List.foldl, hidx]
  rw [show (apply_keypair signFn tx k).message = tx.message from by
    rw [happly]]
  simp only [hidx, hsame]

/-- C9 witness: a concrete one-signer message signed twice with the same
key. -/
theorem C9_signing_idempotent_witness :
    apply_keypair (fun kp msg => [kp.pubkey.length + msg.length])
        (apply_keypair (fun kp msg => [kp.pubkey.length + msg.length])
          { message :=
              { header := { num_required_signatures := 1 }
                account_keys := ["alice", "bob"]
                recent_blockhash := "bh" }
            msg_data := [9, 9]
            signatures := [defaultSignature] }
          { pubkey := "alice" })
        { pubkey := "alice" }
      = apply_keypair (fun kp msg => [kp.pubkey.length + msg.length])
          { message :=
              { header := { num_required_signatures := 1 }
                account_keys := ["alice", "bob"]
                recent_blockhash := "bh" }
            msg_data := [9, 9]
            signatures := [defaultSignature] }
          { pubkey := "alice" } :=
  (C9_signing_idempotent_per_key (fun kp msg => [kp.pubkey.length + msg.length])
      { pubkey := "alice" }
      { message :=
          { header := { num_required_signatures := 1 }
            account_keys := ["alice", "bob"]
            recent_blockhash := "bh" }
        msg_data := [9, 9]
        signatures := [defaultSignature] }
      0 (by decide) (by decide)).1

/-- C7 counterexample: a request with `timeout_seconds = 0` — a value
outside [5, 300] — is not rejected: `monitor_transaction_validate`
defaults it to 60 and proceeds to create the subscription. -/
theorem C7_zero_timeout_not_rejected :
    ¬ (5 ≤ (0 : Nat))
    ∧ monitor_transaction_validate (fun _ => true) (fun _ => true)
        { signature := "sig"
          commitment_level := 2
          include_logs := false
          timeout_seconds := 0 }
      = Except.ok 60 := by
  constructor
  · decide
  · rfl

/-- C7 amended: for every request whose `timeout_seconds` is nonzero and
outside [5, 300], `monitor_transaction_validate` returns an
`InvalidArgument` status before any subscription is created; a zero
timeout is treated as unset and defaulted to 60 seconds. -/
theorem C7_nonzero_out_of_range_timeout_rejected
    (sigParses : String → Bool) (commitmentParses : Int → Bool)
    (req : MonitorTransactionRequest) (h0 : req.timeout_seconds ≠ 0)
    (hout : req.timeout_seconds < 5 ∨ 300 < req.timeout_seconds) :
    monitor_result_code
        (monitor_transaction_validate sigParses commitmentParses req)
      = some StatusCode.invalidArgument := by
  unfold monitor_transaction_validate monitor_result_code
  split_ifs with h1 h2 h3 h4 <;> try rfl
  exfalso
  simp only [if_neg h0] at h4
  simp at h4
  omega

/-- C7 amended witness: a request with timeout 400 seconds is rejected
with `InvalidArgument`. -/
theorem C7_out_of_range_timeout_witness :
    monitor_result_code
        (monitor_transaction_validate (fun _ => true) (fun _ => true)
          { signature := "sig"
            commitment_level := 2
            include_logs := false
            timeout_seconds := 400 })
      = some StatusCode.invalidArgument :=
  C7_nonzero_out_of_range_timeout_rejected (fun _ => true) (fun _ => true)
    _ (by decide) (Or.inr (by decide))

/-- Helper: for Compiled, PartiallySigned and FullySigned transactions,
passing the state-consistency check forces non-empty `data`. -/
theorem data_nonempty_of_consistency (t : Transaction)
    (hst : t.state = TransactionState.compiled
      ∨ t.state = TransactionState.partiallySigned
      ∨ t.state = TransactionState.fullySigned)
    (h : validate_transaction_state_consistency t = Except.ok ()) :
    t.data.isEmpty = false := by
  rcases hst with hst | hst | hst <;>
    simp only [validate_transaction_state_consistency, hst] at h <;>
    split_ifs at h <;> simp_all

/-- C8: for a state-consistent Compiled, PartiallySigned or FullySigned
transaction whose data decodes, if the simulation RPC fails or reports
no (or zero) consumed compute units, `estimate_transaction` succeeds and
returns `compute_units` equal to the instruction count times 50,000,
clamped to [200,000, 1,400,000]. -/
theorem C8_estimate_fallback_compute_units
    (decodeMsg : String → Option SolanaMessage)
    (simulateResult : Option SimulationValue) (t : Transaction)
    (msg : SolanaMessage)
    (hst : t.state = TransactionState.compiled
      ∨ t.state = TransactionState.partiallySigned
      ∨ t.state = TransactionState.fullySigned)
    (hcons : validate_transaction_state_consistency t = Except.ok ())
    (hdec : decodeMsg t.data = some msg)
    (hsim : simulateResult = none
      ∨ ∃ v, simulateResult = some v
          ∧ (v.units_consumed = none ∨ v.units_consumed = some 0)) :
    estimate_compute_units
        (estimate_transaction decodeMsg simulateResult (some t))
      = some (rust_clamp (t.instructions.length * 50000) 200000 1400000) := by
  have hdata := data_nonempty_of_consistency t hst hcons
  rcases hsim with rfl | ⟨v, rfl, hu | hu⟩ <;>
    rcases hst with hst | hst | hst <;>
    simp_all [estimate_transaction, validate_operation_allowed_for_state,
      estimate_compute_units]

/-- C8 witness: a concrete single-instruction Compiled transaction with a
failed simulation yields the clamped fallback of 200,000 compute
units. -/
theorem C8_estimate_fallback_witness :
    estimate_compute_units
        (estimate_transaction
          (fun _ => some
            { header := { num_required_signatures := 1 }
              account_keys := ["payer"]
              recent_blockhash := "bh" })
          none
          (some
            { instructions :=
                [{ program_id := "prog", accounts := [], data := [] }]
              state := TransactionState.compiled
              config := none
              data := "payload"
              fee_payer := "payer"
              recent_blockhash := "bh"
              signatures := []
              hash := ""
              signature := "" }))
      = some 200000 := by
  have h := C8_estimate_fallback_compute_units
    (fun _ => some
      { header := { num_required_signatures := 1 }
        account_keys := ["payer"]
        recent_blockhash := "bh" })
    none
    { instructions := [{ program_id := "prog", accounts := [], data := [] }]
      state := TransactionState.compiled
      config := none
      data := "payload"
      fee_payer := "payer"
      recent_blockhash := "bh"
      signatures := []
      hash := ""
      signature := "" }
    { header := { num_required_signatures := 1 }
      account_keys := ["payer"]
      recent_blockhash := "bh" }
    (Or.inl rfl) rfl rfl (Or.inl rfl)
  simpa using h

/-- C4 counterexample: with no early status available (`some none`) and
a failing `PubsubClient::new`, the monitoring task sends a `Failed`
response and returns — it does not fall back to the polling loop. -/
theorem C4_setup_failure_terminates_not_polls :
    handle_signature_subscription_setup (fun _ => "") "sig" (some none)
        (Except.error "connection refused") (Except.ok ())
      = MonitorSetupOutcome.setupFailed
          { signature := "sig"
            status := TransactionStatus.failed
            slot := 0
            error_message := "WebSocket connection failed: connection refused"
            logs := []
            compute_units_consumed := 0
            current_commitment := CommitmentLevel.unspecified }
    ∧ handle_signature_subscription_setup (fun _ => "") "sig" (some none)
        (Except.error "connection refused") (Except.ok ())
      ≠ MonitorSetupOutcome.hybridLoop := by
  exact ⟨rfl, by intro h; cases h⟩

/-- C4 amended: when the pre-subscribe status check yields no status (or
fails) and the push channel cannot be set up — the pubsub client cannot
be created, or the signature subscription cannot be established — the
monitoring task emits a single `Failed` response naming the failure and
terminates; it reaches the hybrid push/poll loop only when both setup
steps succeed. -/
theorem C4_setup_failure_behaviour
    (renderErr : SdkTransactionError → String) (sig e : String)
    (statusResult : Option (Option TxStatusInfo))
    (subscribeResult : Except String Unit)
    (hstatus : statusResult = none ∨ statusResult = some none) :
    handle_signature_subscription_setup renderErr sig statusResult
        (Except.error e) subscribeResult
      = MonitorSetupOutcome.setupFailed
          { signature := sig
            status := TransactionStatus.failed
            slot := 0
            error_message := "WebSocket connection failed: " ++ e
            logs := []
            compute_units_consumed := 0
            current_commitment := CommitmentLevel.unspecified }
    ∧ handle_signature_subscription_setup renderErr sig statusResult
        (Except.ok ()) (Except.error e)
      = MonitorSetupOutcome.setupFailed
          { signature := sig
            status := TransactionStatus.failed
            slot := 0
            error_message := "Signature subscription failed: " ++ e
            logs := []
            compute_units_consumed := 0
            current_commitment := CommitmentLevel.unspecified } := by
  rcases hstatus with rfl | rfl <;> exact ⟨rfl, rfl⟩

/-- C4 amended witness: concrete setup failures for an unknown-status
signature. -/
theorem C4_setup_failure_witness :
    handle_signature_subscription_setup (fun _ => "") "sig" (some none)
        (Except.error "refused") (Except.ok ())
      = MonitorSetupOutcome.setupFailed
          { signature := "sig"
            status := TransactionStatus.failed
            slot := 0
            error_message := "WebSocket connection failed: refused"
            logs := []
            compute_units_consumed := 0
            current_commitment := CommitmentLevel.unspecified } :=
  (C4_setup_failure_behaviour (fun _ => "") "sig" "refused" (some none)
    (Except.ok ()) (Or.inr rfl)).1

/-- C10: whatever URL pair is supplied, `WebSocketManager::new` stores
the hardcoded endpoint as its WebSocket URL, and that stored URL is the
one every later subscription hands to `PubsubClient::new`. -/
theorem C10_hardcoded_websocket_url (wsUrlArg rpcUrlArg : String) :
    (WebSocketManager_new wsUrlArg rpcUrlArg).ws_url
        = "wss://coned-duped-tees.txtx.network:8900"
    ∧ subscription_ws_url (WebSocketManager_new wsUrlArg rpcUrlArg)
        = "wss://coned-duped-tees.txtx.network:8900" :=
  ⟨rfl, rfl⟩

/-- C6 witness: the theorem instantiated at a concrete client error
carrying `InsufficientFundsForFee`. -/
theorem C6_insufficient_funds_witness :
    (build_structured_error (fun _ => "") (fun _ => "")
          (ClientErrorKind.transactionError
            SdkTransactionError.insufficientFundsForFee) "bh" 7).code
        = TransactionErrorCode.insufficientFunds
    ∧ (build_structured_error (fun _ => "") (fun _ => "")
          (ClientErrorKind.transactionError
            SdkTransactionError.insufficientFundsForFee) "bh" 7).certainty
        = TransactionSubmissionCertainty.notSubmitted
    ∧ (build_structured_error (fun _ => "") (fun _ => "")
          (ClientErrorKind.transactionError
            SdkTransactionError.insufficientFundsForFee) "bh" 7).retryable
        = true :=
  (C6_insufficient_funds_and_derived_retryability (fun _ => "") (fun _ => "")
      (ClientErrorKind.transactionError
        SdkTransactionError.insufficientFundsForFee) "bh" 7).2
    SdkTransactionError.insufficientFundsForFee (Or.inl rfl) (Or.inl rfl)

end Protochain
